import Mathlib

/-!
Shallow embedding of `src/webserver/ph7.c` (Pi-hole FTL's PH7 glue layer).

The C file wires an external PH7 scripting engine into an external civetweb
HTTP server.  All calls into those external libraries are modelled as an
oracle (`EngineOracle`) recording which branch each external call takes and
which data it returns; the handler itself is embedded as a pure function
producing its return code together with a trace of observable events
(log lines, bytes written to the connection, engine-configuration calls,
VM reset/release calls).  Strings are modelled as lists of characters.
-/

namespace FTL.PH7

/-- C strings / byte buffers are modelled as lists of characters. -/
abbrev Str := List Char

/-- Character data of a Lean string literal. -/
def lit (s : String) : Str := s.data

/-- Observable events emitted by the handler (log lines via `logg`,
connection writes via `mg_printf`/`mg_write`, and the PH7 API calls). -/
inductive Event where
  | log (msg : Str)
  | connWrite (bytes : Str)
  | vmConfigHttpRequest (head : Str)
  | vmConfigErrReport
  | vmConfigImportPath (path : Option Str)
  | createFunction (name : Str)
  | vmExec
  | extractOutput
  | vmReset
  | vmRelease
deriving DecidableEq

/-- The fields of `struct httpsettings` used by this file. -/
structure HttpSettings where
  webroot : Str
  webhome : Str
deriving DecidableEq

/-- The field of `FTLfiles` used by this file. -/
structure FTLFiles where
  log : Str
deriving DecidableEq

/-- The fields of `struct mg_request_info` used by `ph7_handler`. -/
structure Request where
  local_uri : Str
  raw_http_head : Str
deriving DecidableEq

/-- Which branch the return code of `ph7_compile_file` takes in
`ph7_handler`: `PH7_OK`, `PH7_IO_ERR`, `PH7_VM_ERR`, or any other code. -/
inductive CompileResult where
  | ok
  | ioErr
  | vmErr
  | otherErr (code : Int)
deriving DecidableEq

/-- Results of the external PH7 engine calls made during one request. -/
structure EngineOracle where
  compileResult : CompileResult
  /-- Content of the engine's internal error log (`zErrLog`). -/
  zErrLog : Str
  /-- Length reported for the internal error log (`niLen`, a C `int`). -/
  niLen : Int
  /-- Whether `ph7_create_function` succeeds for the i-th table entry. -/
  regOk : Nat → Bool
  /-- Whether `ph7_vm_exec` returns `PH7_OK`. -/
  execOk : Bool
  /-- Bytes extracted by `PH7_VM_CONFIG_EXTRACT_OUTPUT` (`pOut`/`nLen`). -/
  output : Str

/-- The module-level string globals `webroot_with_home` and
`webroot_with_home_and_scripts` (`NULL` is `none`). -/
structure Globals where
  webroot_with_home : Option Str
  webroot_with_home_and_scripts : Option Str
deriving DecidableEq

/-- Full path construction of `ph7_handler` (lines 58-65): `strcpy` of the
webroot, a `'/'`, then `strncpy` of `local_uri + 1` for its full length and
a terminating NUL.  The result is the concatenation of the webroot, one
`'/'`, and the local URI minus its first character. -/
def full_path (webroot local_uri : Str) : Str :=
  webroot ++ ['/'] ++ local_uri.drop 1

/-- Log message of the `ph7_create_function` failure branch (line 133). -/
def regFailMsg (name : Str) : Str :=
  lit "Error while registering foreign function " ++ name ++ lit "()"

/-- The registration loop over the native-function table `aFunc`
(lines 129-135): each entry is registered; on failure the error is logged
and the loop continues with the next entry. -/
def registerExtensions (regOk : Nat → Bool) : List Str → Nat → List Event
  | [], _ => []
  | name :: rest, i =>
    Event.createFunction name ::
      ((if regOk i then [] else [Event.log (regFailMsg name)]) ++
        registerExtensions regOk rest (i + 1))

/-- Body written by `mg_printf` on the generic compile-error branch
(lines 98-100): the fixed header and diagnostic text with `FTLfiles.log`
substituted for `%s`. -/
def compileErrorResponse (logfile : Str) : Str :=
  lit "HTTP/1.1 200 OK\r\nContent-Type: text/html\r\n\r\n" ++
    lit "PHP compilation error, check " ++ logfile ++ lit " for further details."

/-- `ph7_handler` (lines 51-163).  Arguments: the `DEBUG_API` debug flag,
the HTTP settings and FTL file paths, the two module-level include-path
globals, the names of the `aFunc` native-function table, the request, and
the engine oracle.  Returns the C return value and the event trace. -/
def ph7_handler (debugApi : Bool) (settings : HttpSettings) (files : FTLFiles)
    (g : Globals) (aFuncNames : List Str) (req : Request)
    (ora : EngineOracle) : Int × List Event :=
  let fp := full_path settings.webroot req.local_uri
  let dbg : List Event :=
    if debugApi then [Event.log (lit "Full path of PHP script: " ++ fp)] else []
  match ora.compileResult with
  | .ioErr =>
      -- Fall back to the HTTP server to handle the 404 event
      (0, dbg ++ [Event.log (lit "IO error while opening the target file (" ++ fp ++ lit ")")])
  | .vmErr =>
      (1, dbg ++ [Event.log (lit "VM initialization error")])
  | .otherErr code =>
      (1, dbg ++
        [Event.log (lit "Compile error (" ++ (toString code).data ++ lit ")"),
         Event.connWrite (compileErrorResponse files.log)] ++
        (if 0 < ora.niLen then [Event.log (lit "PH7 compile error: " ++ ora.zErrLog)] else []))
  | .ok =>
      let pre := dbg ++
        [Event.vmConfigHttpRequest req.raw_http_head,
         Event.vmConfigErrReport,
         Event.vmConfigImportPath g.webroot_with_home,
         Event.vmConfigImportPath g.webroot_with_home_and_scripts] ++
        registerExtensions ora.regOk aFuncNames 0 ++
        [Event.vmExec]
      if ora.execOk then
        (1, pre ++ [Event.extractOutput] ++
          (if 0 < ora.output.length then
             [Event.connWrite (lit "HTTP/1.1 200 OK\r\nContent-Type: text/html\r\n\r\n"),
              Event.connWrite ora.output]
           else []) ++
          [Event.vmReset, Event.vmRelease])
      else
        (1, pre ++ [Event.log (lit "VM execution error")])

/-- The fixed helper subdirectory string `scripts_dir` (line 187). -/
def scripts_dir : Str := lit "/scripts/pi-hole/php"

/-- Result of `init_ph7`: whether the engine was allocated, whether the
error-output callback was registered, the two string globals, and the
emitted log lines. -/
structure InitResult where
  engineOk : Bool
  errorCallbackRegistered : Bool
  globals : Globals
  events : List Event

/-- `init_ph7` (lines 165-194).  `ph7InitOk` records whether the external
`ph7_init` call returns `PH7_OK`.  On failure the function logs and returns
at once, leaving both globals `NULL` and registering no callback; on
success it registers the error callback and builds the two include-path
strings by concatenation. -/
def init_ph7 (ph7InitOk : Bool) (settings : HttpSettings) : InitResult :=
  if ph7InitOk then
    let webroot_with_home := settings.webroot ++ settings.webhome
    { engineOk := true
      errorCallbackRegistered := true
      globals :=
        { webroot_with_home := some webroot_with_home
          webroot_with_home_and_scripts := some (webroot_with_home ++ scripts_dir) }
      events := [] }
  else
    { engineOk := false
      errorCallbackRegistered := false
      globals := { webroot_with_home := none, webroot_with_home_and_scripts := none }
      events := [Event.log (lit "Error while allocating a new PH7 engine instance")] }

/-- C `unsigned int` modulus. -/
def UINT_MOD : Nat := 2 ^ 32

/-- The index the C expression `pOutput[nOutputLen-1]` reads (line 45),
with `unsigned int` wraparound: for `nOutputLen = 0` it is `2^32 - 1`. -/
def errReportIndex (nOutputLen : Nat) : Nat :=
  (nOutputLen + (UINT_MOD - 1)) % UINT_MOD

/-- `PH7_error_report` (lines 41-49): if the byte at `errReportIndex` is a
newline the length is decremented once, then the first `nOutputLen` bytes
are logged via `%.*s`. -/
def PH7_error_report (pOutput : Str) : List Event :=
  let nOutputLen :=
    if pOutput.get? (errReportIndex pOutput.length) = some '\n'
    then pOutput.length - 1 else pOutput.length
  [Event.log (lit "PH7 error: " ++ pOutput.take nOutputLen)]

/-- Bytes written to the connection: concatenation of all `connWrite`
events of a trace, in order. -/
def connOutput : List Event → Str
  | [] => []
  | Event.connWrite s :: rest => s ++ connOutput rest
  | _ :: rest => connOutput rest

/-- `pat` occurs as a contiguous substring of `s`. -/
def strContains (s pat : Str) : Prop := ∃ a b, s = a ++ pat ++ b

/-! ## Helper lemmas -/

theorem connOutput_append (a b : List Event) :
    connOutput (a ++ b) = connOutput a ++ connOutput b := by
  induction a with
  | nil => rfl
  | cons e rest ih => cases e <;> simp [connOutput, ih]

theorem connOutput_registerExtensions (regOk : Nat → Bool) (names : List Str) (i : Nat) :
    connOutput (registerExtensions regOk names i) = [] := by
  induction names generalizing i with
  | nil => rfl
  | cons n rest ih =>
    cases hr : regOk i <;>
      simp [registerExtensions, hr, connOutput_append, connOutput, ih]

theorem mem_registerExtensions_elim {e : Event} (regOk : Nat → Bool)
    (names : List Str) (i : Nat) (h : e ∈ registerExtensions regOk names i) :
    (∃ n, e = Event.createFunction n) ∨ (∃ m, e = Event.log m) := by
  induction names generalizing i with
  | nil => simp [registerExtensions] at h
  | cons n rest ih =>
    cases hr : regOk i <;> simp only [registerExtensions, hr, Bool.false_eq_true,
      if_false, if_true, List.nil_append, List.cons_append, List.mem_cons] at h
    · rcases h with rfl | rfl | h
      · exact .inl ⟨n, rfl⟩
      · exact .inr ⟨_, rfl⟩
      · exact ih _ h
    · rcases h with rfl | h
      · exact .inl ⟨n, rfl⟩
      · exact ih _ h

theorem createFunction_mem_registerExtensions (regOk : Nat → Bool)
    (names : List Str) (i j : Nat) (hj : j < names.length) :
    Event.createFunction (names.get ⟨j, hj⟩) ∈ registerExtensions regOk names i := by
  induction names generalizing i j with
  | nil => simp at hj
  | cons n rest ih =>
    cases j with
    | zero => simp [registerExtensions]
    | succ j =>
      have hj' : j < rest.length := by simpa using hj
      have := ih i.succ j hj'
      cases hr : regOk i <;>
        simp_all [registerExtensions, List.get_eq_getElem]

theorem regFail_log_mem_registerExtensions (regOk : Nat → Bool)
    (names : List Str) (i j : Nat) (hj : j < names.length)
    (hf : regOk (i + j) = false) :
    Event.log (regFailMsg (names.get ⟨j, hj⟩)) ∈ registerExtensions regOk names i := by
  induction names generalizing i j with
  | nil => simp at hj
  | cons n rest ih =>
    cases j with
    | zero =>
      have h0 : regOk i = false := by simpa using hf
      simp [registerExtensions, h0]
    | succ j =>
      have hj' : j < rest.length := by simpa using hj
      have hf' : regOk (i + 1 + j) = false := by
        rw [show i + 1 + j = i + (j + 1) by omega]; exact hf
      have := ih (i + 1) j hj' hf'
      cases hr : regOk i <;>
        simp_all [registerExtensions, List.get_eq_getElem]

theorem connOutput_debug (b : Bool) (m : Str) :
    connOutput (if b then [Event.log m] else []) = [] := by
  cases b <;> simp [connOutput]

theorem compileErrorResponse_contains_marker (logfile : Str) :
    strContains (compileErrorResponse logfile) (lit "PHP compilation error") := by
  refine ⟨lit "HTTP/1.1 200 OK\r\nContent-Type: text/html\r\n\r\n",
    lit ", check " ++ logfile ++ lit " for further details.", ?_⟩
  have h : lit "PHP compilation error, check "
      = lit "PHP compilation error" ++ lit ", check " := by decide
  rw [compileErrorResponse, h]
  simp [List.append_assoc]

theorem compileErrorResponse_contains_logfile (logfile : Str) :
    strContains (compileErrorResponse logfile) logfile :=
  ⟨lit "HTTP/1.1 200 OK\r\nContent-Type: text/html\r\n\r\n"
     ++ lit "PHP compilation error, check ",
   lit " for further details.", by simp [compileErrorResponse, List.append_assoc]⟩

theorem errReportIndex_of_pos {n : Nat} (h1 : 1 ≤ n) (h2 : n < UINT_MOD) :
    errReportIndex n = n - 1 := by
  simp only [errReportIndex, UINT_MOD] at *
  omega

theorem get?_errReportIndex_eq_getLast? (msg : Str) (hne : msg ≠ [])
    (hlen : msg.length < UINT_MOD) :
    msg.get? (errReportIndex msg.length) = msg.getLast? := by
  have h1 : 1 ≤ msg.length := List.length_pos.mpr hne
  rw [errReportIndex_of_pos h1 hlen, List.getLast?_eq_getElem?, List.get?_eq_getElem?]

/-! ## Sample configurations and oracles used by witnesses -/

def sampleSettings : HttpSettings := ⟨lit "/var/www/html", lit "/admin"⟩

def sampleFiles : FTLFiles := ⟨lit "/var/log/pihole-FTL.log"⟩

def sampleReq : Request := ⟨lit "/admin/index.php", lit ""⟩

def sampleGlobals : Globals := ⟨some [], some []⟩

/-- Oracle: compile ok, exec ok, output `"Hello"`. -/
def oraHello : EngineOracle := ⟨.ok, [], 0, fun _ => true, true, lit "Hello"⟩

/-- Oracle: compile ok, exec ok, empty output. -/
def oraNoOutput : EngineOracle := ⟨.ok, [], 0, fun _ => true, true, []⟩

/-- Oracle: compile ok, `ph7_vm_exec` fails. -/
def oraExecFail : EngineOracle := ⟨.ok, [], 0, fun _ => true, false, []⟩

/-- Oracle: `ph7_compile_file` returns `PH7_IO_ERR`. -/
def oraIOErr : EngineOracle := ⟨.ioErr, [], 0, fun _ => true, true, []⟩

/-- Oracle: `ph7_compile_file` returns `PH7_VM_ERR`. -/
def oraVMErr : EngineOracle := ⟨.vmErr, [], 0, fun _ => true, true, []⟩

/-- Oracle: `ph7_compile_file` returns a generic error code. -/
def oraCompileFail : EngineOracle :=
  ⟨.otherErr (-10), lit "Syntax error, line 3", 20, fun _ => true, true, []⟩

/-- Oracle: compile ok, second native-function registration fails. -/
def oraRegFail : EngineOracle :=
  ⟨.ok, [], 0, fun i => decide (i ≠ 1), true, lit "Hello"⟩

/-! ## Claims -/

/-- C8: for every message delivered to the error-output callback, the
logged text is the message with exactly one trailing newline removed when
the last byte is a newline, and the unmodified message otherwise; at most
one newline is stripped even when the message ends in several. -/
theorem error_report_strips_one_trailing_newline (msg : Str) (hne : msg ≠ [])
    (hlen : msg.length < UINT_MOD) :
    (msg.getLast? = some '\n' →
      PH7_error_report msg = [Event.log (lit "PH7 error: " ++ msg.dropLast)]) ∧
    (msg.getLast? ≠ some '\n' →
      PH7_error_report msg = [Event.log (lit "PH7 error: " ++ msg)]) ∧
    (∀ ms, msg = ms ++ ['\n', '\n'] →
      PH7_error_report msg = [Event.log (lit "PH7 error: " ++ (ms ++ ['\n']))]) := by
  have hget := get?_errReportIndex_eq_getLast? msg hne hlen
  refine ⟨?_, ?_, ?_⟩
  · intro h
    simp only [PH7_error_report, hget, h, if_pos, List.dropLast_eq_take]
  · intro h
    simp only [PH7_error_report, hget, if_neg h, List.take_length]
  · intro ms hm
    have hsplit : msg = (ms ++ ['\n']) ++ ['\n'] := by simp [hm]
    have hl : msg.getLast? = some '\n' := by rw [hsplit, List.getLast?_concat]
    simp only [PH7_error_report, hget, hl, if_pos]
    rw [hsplit, ← List.dropLast_eq_take, List.dropLast_concat]

theorem error_report_strips_one_trailing_newline_witness :
    ((lit "error\n\n" ≠ []) ∧ (lit "error\n\n").length < UINT_MOD) ∧
    ((lit "error\n\n").getLast? = some '\n' →
      PH7_error_report (lit "error\n\n")
        = [Event.log (lit "PH7 error: " ++ (lit "error\n\n").dropLast)]) ∧
    ((lit "error\n\n").getLast? ≠ some '\n' →
      PH7_error_report (lit "error\n\n")
        = [Event.log (lit "PH7 error: " ++ lit "error\n\n")]) ∧
    (∀ ms, lit "error\n\n" = ms ++ ['\n', '\n'] →
      PH7_error_report (lit "error\n\n")
        = [Event.log (lit "PH7 error: " ++ (ms ++ ['\n']))]) :=
  ⟨⟨by decide, by decide⟩,
    error_report_strips_one_trailing_newline (lit "error\n\n") (by decide) (by decide)⟩

/-- C9: the callback indexes the buffer at the `unsigned` value of
`nOutputLen - 1`; for `nOutputLen ≥ 1` (below the `unsigned int` bound)
that access is in bounds, while for `nOutputLen = 0` the computed index is
`2^32 - 1`, out of bounds for the empty buffer. -/
theorem error_report_access_bounds :
    (∀ n : Nat, 1 ≤ n → n < UINT_MOD →
      errReportIndex n = n - 1 ∧ errReportIndex n < n) ∧
    (errReportIndex 0 = UINT_MOD - 1 ∧ ¬ errReportIndex 0 < 0) ∧
    (∀ msg : Str, msg ≠ [] → msg.length < UINT_MOD →
      (msg.get? (errReportIndex msg.length)).isSome = true) := by
  refine ⟨?_, ⟨?_, by omega⟩, ?_⟩
  · intro n h1 h2
    refine ⟨errReportIndex_of_pos h1 h2, ?_⟩
    rw [errReportIndex_of_pos h1 h2]; omega
  · simp only [errReportIndex, UINT_MOD]; omega
  · intro msg hne hlen
    rw [get?_errReportIndex_eq_getLast?, List.getLast?_isSome] <;> assumption

theorem error_report_access_bounds_witness :
    (errReportIndex 1 = 0 ∧ errReportIndex 1 < 1) ∧
    (errReportIndex 0 = UINT_MOD - 1 ∧ ¬ errReportIndex 0 < 0) ∧
    ((lit "x").get? (errReportIndex (lit "x").length)).isSome = true :=
  ⟨error_report_access_bounds.1 1 (by decide) (by decide),
   error_report_access_bounds.2.1,
   error_report_access_bounds.2.2 (lit "x") (by decide) (by decide)⟩

/-- C5: the full script path the handler builds is exactly the configured
document root, one `'/'`, and the request's local URI minus its leading
`'/'` — a plain concatenation with no normalization or filtering. -/
theorem full_path_plain_concatenation (settings : HttpSettings) (req : Request)
    (rest : Str) (h : req.local_uri = '/' :: rest) :
    full_path settings.webroot req.local_uri = settings.webroot ++ ['/'] ++ rest := by
  rw [h]; simp [full_path]

theorem full_path_plain_concatenation_witness :
    (⟨lit "/admin/settings.php?tab=../../etc", lit ""⟩ : Request).local_uri
        = '/' :: lit "admin/settings.php?tab=../../etc" ∧
    full_path (HttpSettings.mk (lit "/var/www/html") (lit "/admin")).webroot
        (Request.mk (lit "/admin/settings.php?tab=../../etc") (lit "")).local_uri
      = lit "/var/www/html" ++ ['/'] ++ lit "admin/settings.php?tab=../../etc" :=
  ⟨by decide,
   full_path_plain_concatenation ⟨lit "/var/www/html", lit "/admin"⟩
     ⟨lit "/admin/settings.php?tab=../../etc", lit ""⟩
     (lit "admin/settings.php?tab=../../etc") (by decide)⟩

/-- C6: after a successful `init_ph7`, the first include-path string is
`webroot ++ webhome` and the second is
`webroot ++ webhome ++ "/scripts/pi-hole/php"`. -/
theorem init_include_paths (webroot webhome : Str)
    (h1 : webroot ≠ []) (h2 : webhome ≠ []) :
    (init_ph7 true ⟨webroot, webhome⟩).globals.webroot_with_home
        = some (webroot ++ webhome) ∧
    (init_ph7 true ⟨webroot, webhome⟩).globals.webroot_with_home_and_scripts
        = some (webroot ++ webhome ++ lit "/scripts/pi-hole/php") := by
  simp [init_ph7, scripts_dir]

theorem init_include_paths_witness :
    (lit "/var/www/html" ≠ [] ∧ lit "/admin" ≠ []) ∧
    (init_ph7 true ⟨lit "/var/www/html", lit "/admin"⟩).globals.webroot_with_home
        = some (lit "/var/www/html" ++ lit "/admin") ∧
    (init_ph7 true ⟨lit "/var/www/html", lit "/admin"⟩).globals.webroot_with_home_and_scripts
        = some (lit "/var/www/html" ++ lit "/admin" ++ lit "/scripts/pi-hole/php") :=
  ⟨⟨by decide, by decide⟩,
   init_include_paths (lit "/var/www/html") (lit "/admin") (by decide) (by decide)⟩

/-- C10: when `ph7_init` fails, `init_ph7` logs and returns at once: both
include-path globals stay `NULL` and no error-output callback is
registered; `ph7_handler` performs no initialization check and passes the
`NULL` include paths straight to the VM configuration calls. -/
theorem init_failure_leaves_nulls_unchecked (settings : HttpSettings)
    (files : FTLFiles) (debugApi : Bool) (names : List Str) (req : Request)
    (ora : EngineOracle) (hc : ora.compileResult = .ok) :
    (init_ph7 false settings).globals.webroot_with_home = none ∧
    (init_ph7 false settings).globals.webroot_with_home_and_scripts = none ∧
    (init_ph7 false settings).errorCallbackRegistered = false ∧
    (init_ph7 false settings).engineOk = false ∧
    Event.log (lit "Error while allocating a new PH7 engine instance")
        ∈ (init_ph7 false settings).events ∧
    Event.vmConfigImportPath none ∈
      (ph7_handler debugApi settings files (init_ph7 false settings).globals
        names req ora).2 := by
  refine ⟨rfl, rfl, rfl, rfl, by simp [init_ph7], ?_⟩
  cases he : ora.execOk <;>
    simp [ph7_handler, hc, he, init_ph7]

theorem init_failure_leaves_nulls_unchecked_witness :
    oraNoOutput.compileResult = CompileResult.ok ∧
    ((init_ph7 false sampleSettings).globals.webroot_with_home = none ∧
      (init_ph7 false sampleSettings).globals.webroot_with_home_and_scripts = none ∧
      (init_ph7 false sampleSettings).errorCallbackRegistered = false ∧
      (init_ph7 false sampleSettings).engineOk = false ∧
      Event.log (lit "Error while allocating a new PH7 engine instance")
          ∈ (init_ph7 false sampleSettings).events ∧
      Event.vmConfigImportPath none ∈
        (ph7_handler false sampleSettings sampleFiles
          (init_ph7 false sampleSettings).globals [] sampleReq oraNoOutput).2) :=
  ⟨rfl,
   init_failure_leaves_nulls_unchecked sampleSettings sampleFiles false []
     sampleReq oraNoOutput rfl⟩

/-- C3: when compilation and execution succeed the handler returns 1, and
the bytes written to the connection are the `200 OK`/`text/html` header
followed by exactly the captured output when the extracted length is
positive, and nothing at all when the extracted length is zero. -/
theorem handler_success_output (debugApi : Bool) (settings : HttpSettings)
    (files : FTLFiles) (g : Globals) (names : List Str) (req : Request)
    (ora : EngineOracle) (hc : ora.compileResult = .ok) (he : ora.execOk = true) :
    (ph7_handler debugApi settings files g names req ora).1 = 1 ∧
    connOutput (ph7_handler debugApi settings files g names req ora).2 =
      (if 0 < ora.output.length
       then lit "HTTP/1.1 200 OK\r\nContent-Type: text/html\r\n\r\n" ++ ora.output
       else []) := by
  refine ⟨by simp [ph7_handler, hc, he], ?_⟩
  simp only [ph7_handler, hc, he]
  simp only [connOutput_append, connOutput_debug, connOutput_registerExtensions,
    connOutput, if_true, List.nil_append, List.append_nil]
  split <;> simp [connOutput]

theorem handler_success_output_witness :
    oraHello.compileResult = CompileResult.ok ∧ oraHello.execOk = true ∧
    (ph7_handler false sampleSettings sampleFiles sampleGlobals []
        sampleReq oraHello).1 = 1 ∧
    connOutput (ph7_handler false sampleSettings sampleFiles sampleGlobals []
        sampleReq oraHello).2 =
      (if 0 < oraHello.output.length
       then lit "HTTP/1.1 200 OK\r\nContent-Type: text/html\r\n\r\n" ++ oraHello.output
       else []) :=
  ⟨rfl, rfl,
   handler_success_output false sampleSettings sampleFiles sampleGlobals []
     sampleReq oraHello rfl rfl⟩

/-- C4: an I/O compile error is logged and the handler returns 0 (host
serves its 404); a VM-initialization error or a runtime execution error is
logged and the handler returns 1 with no bytes written to the connection. -/
theorem handler_error_dispositions (debugApi : Bool) (settings : HttpSettings)
    (files : FTLFiles) (g : Globals) (names : List Str) (req : Request)
    (ora : EngineOracle) :
    (ora.compileResult = .ioErr →
      (ph7_handler debugApi settings files g names req ora).1 = 0 ∧
      Event.log (lit "IO error while opening the target file ("
          ++ full_path settings.webroot req.local_uri ++ lit ")")
        ∈ (ph7_handler debugApi settings files g names req ora).2) ∧
    (ora.compileResult = .vmErr →
      (ph7_handler debugApi settings files g names req ora).1 = 1 ∧
      Event.log (lit "VM initialization error")
        ∈ (ph7_handler debugApi settings files g names req ora).2 ∧
      connOutput (ph7_handler debugApi settings files g names req ora).2 = []) ∧
    (ora.compileResult = .ok → ora.execOk = false →
      (ph7_handler debugApi settings files g names req ora).1 = 1 ∧
      Event.log (lit "VM execution error")
        ∈ (ph7_handler debugApi settings files g names req ora).2 ∧
      connOutput (ph7_handler debugApi settings files g names req ora).2 = []) := by
  refine ⟨?_, ?_, ?_⟩
  · intro hc
    refine ⟨by simp [ph7_handler, hc], ?_⟩
    simp [ph7_handler, hc]
  · intro hc
    refine ⟨by simp [ph7_handler, hc], by simp [ph7_handler, hc], ?_⟩
    simp [ph7_handler, hc, connOutput_append, connOutput_debug, connOutput]
  · intro hc he
    refine ⟨by simp [ph7_handler, hc, he], by simp [ph7_handler, hc, he], ?_⟩
    simp [ph7_handler, hc, he, connOutput_append, connOutput_debug,
      connOutput_registerExtensions, connOutput]

theorem handler_error_dispositions_witness :
    ((ph7_handler false sampleSettings sampleFiles sampleGlobals []
        sampleReq oraIOErr).1 = 0 ∧
      Event.log (lit "IO error while opening the target file ("
          ++ full_path sampleSettings.webroot sampleReq.local_uri ++ lit ")")
        ∈ (ph7_handler false sampleSettings sampleFiles sampleGlobals []
            sampleReq oraIOErr).2) ∧
    ((ph7_handler false sampleSettings sampleFiles sampleGlobals []
        sampleReq oraVMErr).1 = 1 ∧
      Event.log (lit "VM initialization error")
        ∈ (ph7_handler false sampleSettings sampleFiles sampleGlobals []
            sampleReq oraVMErr).2 ∧
      connOutput (ph7_handler false sampleSettings sampleFiles sampleGlobals []
            sampleReq oraVMErr).2 = []) ∧
    ((ph7_handler false sampleSettings sampleFiles sampleGlobals []
        sampleReq oraExecFail).1 = 1 ∧
      Event.log (lit "VM execution error")
        ∈ (ph7_handler false sampleSettings sampleFiles sampleGlobals []
            sampleReq oraExecFail).2 ∧
      connOutput (ph7_handler false sampleSettings sampleFiles sampleGlobals []
            sampleReq oraExecFail).2 = []) :=
  ⟨(handler_error_dispositions false sampleSettings sampleFiles sampleGlobals []
      sampleReq oraIOErr).1 rfl,
   (handler_error_dispositions false sampleSettings sampleFiles sampleGlobals []
      sampleReq oraVMErr).2.1 rfl,
   (handler_error_dispositions false sampleSettings sampleFiles sampleGlobals []
      sampleReq oraExecFail).2.2 rfl rfl⟩

/-- C2: when compilation fails with a code other than `PH7_IO_ERR` and
`PH7_VM_ERR`, the handler writes a `200 OK`/`text/html` response whose
body contains `"PHP compilation error"` and the configured log-file path,
logs the engine's internal error log when its length is positive, and
returns 1; the connection bytes are a fixed string independent of the
compiler's error text, so that text never reaches the response. -/
theorem handler_compile_error_response (debugApi : Bool)
    (settings : HttpSettings) (files : FTLFiles) (g : Globals)
    (names : List Str) (req : Request) (ora : EngineOracle) (code : Int)
    (hc : ora.compileResult = .otherErr code) :
    (ph7_handler debugApi settings files g names req ora).1 = 1 ∧
    connOutput (ph7_handler debugApi settings files g names req ora).2
        = compileErrorResponse files.log ∧
    strContains (compileErrorResponse files.log) (lit "PHP compilation error") ∧
    strContains (compileErrorResponse files.log) files.log ∧
    (0 < ora.niLen →
      Event.log (lit "PH7 compile error: " ++ ora.zErrLog)
        ∈ (ph7_handler debugApi settings files g names req ora).2) ∧
    (∀ e : Str,
      connOutput (ph7_handler debugApi settings files g names req
        { ora with zErrLog := e }).2 = compileErrorResponse files.log) := by
  have hout : ∀ ora' : EngineOracle, ora'.compileResult = .otherErr code →
      connOutput (ph7_handler debugApi settings files g names req ora').2
        = compileErrorResponse files.log := by
    intro ora' hc'
    simp only [ph7_handler, hc']
    simp only [connOutput_append, connOutput_debug, connOutput, List.nil_append]
    split <;> simp [connOutput]
  refine ⟨by simp [ph7_handler, hc], hout ora hc,
    compileErrorResponse_contains_marker _,
    compileErrorResponse_contains_logfile _, ?_, fun e => hout _ hc⟩
  intro h
  simp [ph7_handler, hc, h]

theorem handler_compile_error_response_witness :
    oraCompileFail.compileResult = CompileResult.otherErr (-10) ∧
    ((ph7_handler false sampleSettings sampleFiles sampleGlobals []
        sampleReq oraCompileFail).1 = 1 ∧
      connOutput (ph7_handler false sampleSettings sampleFiles sampleGlobals []
          sampleReq oraCompileFail).2 = compileErrorResponse sampleFiles.log ∧
      strContains (compileErrorResponse sampleFiles.log)
          (lit "PHP compilation error") ∧
      strContains (compileErrorResponse sampleFiles.log) sampleFiles.log ∧
      (0 < oraCompileFail.niLen →
        Event.log (lit "PH7 compile error: " ++ oraCompileFail.zErrLog)
          ∈ (ph7_handler false sampleSettings sampleFiles sampleGlobals []
              sampleReq oraCompileFail).2) ∧
      (∀ e : Str,
        connOutput (ph7_handler false sampleSettings sampleFiles sampleGlobals []
            sampleReq { oraCompileFail with zErrLog := e }).2
          = compileErrorResponse sampleFiles.log)) :=
  ⟨rfl,
   handler_compile_error_response false sampleSettings sampleFiles sampleGlobals []
     sampleReq oraCompileFail (-10) rfl⟩

theorem vmReset_mem_reg_iff (regOk : Nat → Bool) (names : List Str) (i : Nat) :
    Event.vmReset ∈ registerExtensions regOk names i ↔ False :=
  ⟨fun h => by
    rcases mem_registerExtensions_elim _ _ _ h with ⟨n, h'⟩ | ⟨m, h'⟩ <;>
      exact Event.noConfusion h', False.elim⟩

theorem vmRelease_mem_reg_iff (regOk : Nat → Bool) (names : List Str) (i : Nat) :
    Event.vmRelease ∈ registerExtensions regOk names i ↔ False :=
  ⟨fun h => by
    rcases mem_registerExtensions_elim _ _ _ h with ⟨n, h'⟩ | ⟨m, h'⟩ <;>
      exact Event.noConfusion h', False.elim⟩

theorem mem_handler_trace_of_mem_reg (debugApi : Bool) (settings : HttpSettings)
    (files : FTLFiles) (g : Globals) (names : List Str) (req : Request)
    (ora : EngineOracle) (hc : ora.compileResult = .ok) {e : Event}
    (h : e ∈ registerExtensions ora.regOk names 0) :
    e ∈ (ph7_handler debugApi settings files g names req ora).2 := by
  cases he : ora.execOk <;> simp [ph7_handler, hc, he, List.mem_append] <;> tauto

/-- C7: a failing `ph7_create_function` for any table entry is logged by
name and is non-fatal: every entry is still presented for registration,
the VM is still executed, and (when execution succeeds) the output is
still extracted. -/
theorem registration_failure_nonfatal (debugApi : Bool) (settings : HttpSettings)
    (files : FTLFiles) (g : Globals) (names : List Str) (req : Request)
    (ora : EngineOracle) (hc : ora.compileResult = .ok)
    (i : Nat) (hi : i < names.length) (hf : ora.regOk i = false) :
    Event.log (regFailMsg (names.get ⟨i, hi⟩))
        ∈ (ph7_handler debugApi settings files g names req ora).2 ∧
    (∀ j (hj : j < names.length),
      Event.createFunction (names.get ⟨j, hj⟩)
        ∈ (ph7_handler debugApi settings files g names req ora).2) ∧
    Event.vmExec ∈ (ph7_handler debugApi settings files g names req ora).2 ∧
    (ora.execOk = true →
      Event.extractOutput ∈ (ph7_handler debugApi settings files g names req ora).2) := by
  have hf0 : ora.regOk (0 + i) = false := by simpa using hf
  refine ⟨mem_handler_trace_of_mem_reg debugApi settings files g names req ora hc
      (regFail_log_mem_registerExtensions ora.regOk names 0 i hi hf0),
    fun j hj => mem_handler_trace_of_mem_reg debugApi settings files g names req ora hc
      (createFunction_mem_registerExtensions ora.regOk names 0 j hj), ?_, ?_⟩
  · cases he : ora.execOk <;> simp [ph7_handler, hc, he, List.mem_append]
  · intro he; simp [ph7_handler, hc, he, List.mem_append]

theorem registration_failure_nonfatal_witness :
    (oraRegFail.compileResult = CompileResult.ok ∧
      1 < [lit "pihole", lit "pihole_version"].length ∧
      oraRegFail.regOk 1 = false) ∧
    (Event.log (regFailMsg (lit "pihole_version"))
        ∈ (ph7_handler false sampleSettings sampleFiles sampleGlobals
            [lit "pihole", lit "pihole_version"] sampleReq oraRegFail).2 ∧
      (∀ j (hj : j < [lit "pihole", lit "pihole_version"].length),
        Event.createFunction ([lit "pihole", lit "pihole_version"].get ⟨j, hj⟩)
          ∈ (ph7_handler false sampleSettings sampleFiles sampleGlobals
              [lit "pihole", lit "pihole_version"] sampleReq oraRegFail).2) ∧
      Event.vmExec ∈ (ph7_handler false sampleSettings sampleFiles sampleGlobals
          [lit "pihole", lit "pihole_version"] sampleReq oraRegFail).2 ∧
      (oraRegFail.execOk = true →
        Event.extractOutput ∈ (ph7_handler false sampleSettings sampleFiles
            sampleGlobals [lit "pihole", lit "pihole_version"] sampleReq oraRegFail).2)) :=
  ⟨⟨rfl, by decide, by decide⟩,
   registration_failure_nonfatal false sampleSettings sampleFiles sampleGlobals
     [lit "pihole", lit "pihole_version"] sampleReq oraRegFail rfl 1
     (by decide) (by decide)⟩

/-- C1 (counterexample): at a request whose compilation succeeds but whose
`ph7_vm_exec` fails, the handler neither resets nor releases the compiled
program handle, refuting the claim that every branch reaching the
execution step does so. -/
theorem reset_release_claim_counterexample :
    ¬ (Event.vmReset ∈ (ph7_handler false sampleSettings sampleFiles
          sampleGlobals [] sampleReq oraExecFail).2 ∧
       Event.vmRelease ∈ (ph7_handler false sampleSettings sampleFiles
          sampleGlobals [] sampleReq oraExecFail).2) := by
  decide

/-- C1 (amended): for a request whose compilation succeeds, the handler
resets and then releases the program handle exactly when `ph7_vm_exec`
succeeds; on the branch where `ph7_vm_exec` fails it returns 1 without
resetting or releasing. -/
theorem reset_release_only_on_exec_success (debugApi : Bool)
    (settings : HttpSettings) (files : FTLFiles) (g : Globals)
    (names : List Str) (req : Request) (ora : EngineOracle)
    (hc : ora.compileResult = .ok) :
    (ora.execOk = true →
      ∃ pre, (ph7_handler debugApi settings files g names req ora).2
        = pre ++ [Event.vmReset, Event.vmRelease]) ∧
    (ora.execOk = false →
      (ph7_handler debugApi settings files g names req ora).1 = 1 ∧
      Event.vmReset ∉ (ph7_handler debugApi settings files g names req ora).2 ∧
      Event.vmRelease ∉ (ph7_handler debugApi settings files g names req ora).2) := by
  constructor
  · intro he
    simp only [ph7_handler, hc, he, if_true]
    refine ⟨(if debugApi then
        [Event.log (lit "Full path of PHP script: "
          ++ full_path settings.webroot req.local_uri)] else []) ++
      Event.vmConfigHttpRequest req.raw_http_head ::
      Event.vmConfigErrReport ::
      Event.vmConfigImportPath g.webroot_with_home ::
      Event.vmConfigImportPath g.webroot_with_home_and_scripts ::
      (registerExtensions ora.regOk names 0 ++
        Event.vmExec :: Event.extractOutput ::
        (if 0 < ora.output.length then
          [Event.connWrite (lit "HTTP/1.1 200 OK\r\nContent-Type: text/html\r\n\r\n"),
           Event.connWrite ora.output] else [])), ?_⟩
    simp [List.append_assoc]
  · intro he
    refine ⟨by simp [ph7_handler, hc, he], ?_, ?_⟩ <;>
    · intro hmem
      cases hd : debugApi <;>
        simp [ph7_handler, hc, he, hd, vmReset_mem_reg_iff, vmRelease_mem_reg_iff] at hmem

theorem reset_release_only_on_exec_success_witness :
    (oraHello.compileResult = CompileResult.ok ∧
      oraExecFail.compileResult = CompileResult.ok) ∧
    ((oraHello.execOk = true →
        ∃ pre, (ph7_handler false sampleSettings sampleFiles sampleGlobals []
            sampleReq oraHello).2 = pre ++ [Event.vmReset, Event.vmRelease]) ∧
      (oraHello.execOk = false →
        (ph7_handler false sampleSettings sampleFiles sampleGlobals []
            sampleReq oraHello).1 = 1 ∧
        Event.vmReset ∉ (ph7_handler false sampleSettings sampleFiles
            sampleGlobals [] sampleReq oraHello).2 ∧
        Event.vmRelease ∉ (ph7_handler false sampleSettings sampleFiles
            sampleGlobals [] sampleReq oraHello).2)) ∧
    ((oraExecFail.execOk = true →
        ∃ pre, (ph7_handler false sampleSettings sampleFiles sampleGlobals []
            sampleReq oraExecFail).2 = pre ++ [Event.vmReset, Event.vmRelease]) ∧
      (oraExecFail.execOk = false →
        (ph7_handler false sampleSettings sampleFiles sampleGlobals []
            sampleReq oraExecFail).1 = 1 ∧
        Event.vmReset ∉ (ph7_handler false sampleSettings sampleFiles
            sampleGlobals [] sampleReq oraExecFail).2 ∧
        Event.vmRelease ∉ (ph7_handler false sampleSettings sampleFiles
            sampleGlobals [] sampleReq oraExecFail).2)) :=
  ⟨⟨rfl, rfl⟩,
   reset_release_only_on_exec_success false sampleSettings sampleFiles
     sampleGlobals [] sampleReq oraHello rfl,
   reset_release_only_on_exec_success false sampleSettings sampleFiles
     sampleGlobals [] sampleReq oraExecFail rfl⟩

end FTL.PH7
